import Mathlib

/-!
Verification development for the demand-cli translating proxy.

Each Rust source construct that the properties below talk about is given a
shallow embedding: pure functions become Lean functions, the stateful
handlers become explicit state-passing functions, and the long-running
loops become step functions over the loop state together with an explicit
exit reason. Machine integers are modelled as Nat (with masking where the
source masks) and f32 arithmetic as exact rational arithmetic.
-/

namespace Config

/-- The six log levels accepted by both loglevel validators in
src/config.rs (the string literals of the match arms, in source order). -/
def valid_levels : List String := ["trace", "debug", "info", "warn", "error", "off"]

/-- ASCII lowercasing of one character, modelling what Rust
str::to_lowercase does on the ASCII option strings involved here. -/
def to_lower_char (c : Char) : Char :=
  if 65 ≤ c.toNat ∧ c.toNat ≤ 90 then Char.ofNat (c.toNat + 32) else c

/-- ASCII lowercasing of a string (the log-level strings are ASCII). -/
def to_lowercase (s : String) : String := String.mk (s.data.map to_lower_char)

/-- Embeds Configuration::loglevel (src/config.rs): the configured string is
lowercased, matched against the six level literals, and returned unchanged on
a match; anything else falls back to "info". -/
def loglevel (configured : String) : String :=
  if to_lowercase configured ∈ valid_levels then configured else "info"

/-- Embeds Configuration::nc_loglevel (src/config.rs): the configured string
is matched as-is (no lowercasing) against the six level literals and returned
unchanged on a match; anything else falls back to "off". -/
def nc_loglevel (configured : String) : String :=
  if configured ∈ valid_levels then configured else "off"

/-- Embeds the option-resolution pattern of Configuration::load_config
(src/config.rs): args.X.or(config.X).or_else(env_X).unwrap_or(default),
i.e. command-line flag first, then config file, then environment variable,
then the built-in default. -/
def resolve_option {α : Type} (flag file env : Option α) (dflt : α) : α :=
  match flag with
  | some v => v
  | none =>
    match file with
    | some v => v
    | none =>
      match env with
      | some v => v
      | none => dflt

/-- Embeds the interval computation of Configuration::load_config:
args.adjustment_interval.or(config.interval).or_else(env INTERVAL).unwrap_or(120000). -/
def load_interval (flag file env : Option Nat) : Nat :=
  resolve_option flag file env 120000

/-- Embeds Configuration::environment (src/config.rs). -/
def environment (staging localFlag : Bool) : String :=
  if staging then "staging" else if localFlag then "local" else "production"

/-- The two ways fetch_pool_urls (src/config.rs) resolves pool addresses:
either it returns the fixed local address immediately, or it proceeds to a
network fetch of pool URLs from a server URL. -/
inductive PoolRoute where
  | localAddress (addr : String)
  | fetchFrom (url : String)
deriving DecidableEq, Repr

/-- Embeds the control flow of fetch_pool_urls (src/config.rs): when the
local flag is set it returns 127.0.0.1:20000 at once; otherwise it targets
the staging or production server URL (the URL constants live outside
src/ and are taken as parameters). -/
def fetch_pool_urls (stagingUrl productionUrl : String)
    (staging localFlag : Bool) : PoolRoute :=
  if localFlag then PoolRoute.localAddress "127.0.0.1:20000"
  else PoolRoute.fetchFrom (if staging then stagingUrl else productionUrl)

lemma loglevel_of_mem {s : String} (h : Config.to_lowercase s ∈ valid_levels) :
    loglevel s = s := by
  simp [loglevel, h]

lemma loglevel_of_not_mem {s : String} (h : Config.to_lowercase s ∉ valid_levels) :
    loglevel s = "info" := by
  simp [loglevel, h]

lemma nc_loglevel_of_mem {s : String} (h : s ∈ valid_levels) :
    nc_loglevel s = s := by
  simp [nc_loglevel, h]

lemma nc_loglevel_of_not_mem {s : String} (h : s ∉ valid_levels) :
    nc_loglevel s = "off" := by
  simp [nc_loglevel, h]

lemma toLower_of_mem_valid_levels {s : String} (h : s ∈ valid_levels) :
    Config.to_lowercase s ∈ valid_levels := by
  simp [valid_levels] at h
  rcases h with h | h | h | h | h | h <;> subst h <;> decide

end Config

/-- Claim C10: Configuration::loglevel validates case-insensitively and returns the
configured string unchanged when its lowercase form is one of the six levels,
falling back to "info" otherwise; Configuration::nc_loglevel validates
case-sensitively and returns "off" for any string that is not exactly one of
the six; the lowercase form of either result is always one of the six. -/
theorem C10_loglevel_validation (s : String) :
    (Config.to_lowercase s ∈ Config.valid_levels → Config.loglevel s = s) ∧
    (Config.to_lowercase s ∉ Config.valid_levels → Config.loglevel s = "info") ∧
    (s ∈ Config.valid_levels → Config.nc_loglevel s = s) ∧
    (s ∉ Config.valid_levels → Config.nc_loglevel s = "off") ∧
    Config.to_lowercase (Config.loglevel s) ∈ Config.valid_levels ∧
    Config.to_lowercase (Config.nc_loglevel s) ∈ Config.valid_levels := by
  refine ⟨fun h => Config.loglevel_of_mem h, fun h => Config.loglevel_of_not_mem h,
    fun h => Config.nc_loglevel_of_mem h, fun h => Config.nc_loglevel_of_not_mem h, ?_, ?_⟩
  · by_cases h : Config.to_lowercase s ∈ Config.valid_levels
    · rw [Config.loglevel_of_mem h]; exact h
    · rw [Config.loglevel_of_not_mem h]; decide
  · by_cases h : s ∈ Config.valid_levels
    · rw [Config.nc_loglevel_of_mem h]; exact Config.toLower_of_mem_valid_levels h
    · rw [Config.nc_loglevel_of_not_mem h]; decide

/-- Witness for C10: instantiates the theorem at the concrete inputs
"TRACE" (mixed case, accepted by loglevel, rejected by nc_loglevel) and
"bogus" (rejected by both), discharging each hypothesis. -/
theorem C10_loglevel_validation_witness :
    Config.loglevel "TRACE" = "TRACE" ∧
    Config.nc_loglevel "TRACE" = "off" ∧
    Config.loglevel "bogus" = "info" ∧
    Config.nc_loglevel "trace" = "trace" :=
  ⟨(C10_loglevel_validation "TRACE").1 (by decide),
   (C10_loglevel_validation "TRACE").2.2.2.1 (by decide),
   (C10_loglevel_validation "bogus").2.1 (by decide),
   (C10_loglevel_validation "trace").2.2.1 (by decide)⟩

/-- Counterexample to claim C5: with no command-line flag, a config-file interval of
111 and an environment-variable interval of 222, load_config yields 111 —
the file value wins over the environment variable, contradicting the claimed
order in which the environment variable overrides the file value. -/
theorem C5_override_order_counterexample :
    Config.load_interval none (some 111) (some 222) = 111 ∧
    Config.load_interval none (some 111) (some 222) ≠ 222 := by
  decide

/-- Claim C5 as amended: the effective value of an option is chosen flag first, then
config file, then environment variable, then the built-in default, and the
vardiff adjustment interval defaults to 120000 ms when no source sets it. -/
theorem C5_override_order :
    (∀ (α : Type) (v : α) (fi ev : Option α) (d : α),
      Config.resolve_option (some v) fi ev d = v) ∧
    (∀ (α : Type) (v : α) (ev : Option α) (d : α),
      Config.resolve_option none (some v) ev d = v) ∧
    (∀ (α : Type) (v : α) (d : α),
      Config.resolve_option none none (some v) d = v) ∧
    (∀ (α : Type) (d : α), Config.resolve_option none none none d = d) ∧
    Config.load_interval none none none = 120000 := by
  exact ⟨fun α v fi ev d => rfl, fun α v ev d => rfl, fun α v d => rfl,
    fun α d => rfl, rfl⟩

/-- Claim C6: exactly one environment string is produced per flag combination —
"staging" when the staging flag is set, "local" when only the local flag is
set, "production" when neither is — and whenever the local flag is set the
pool-address resolution returns the single address 127.0.0.1:20000 without
fetching pool URLs from any server. -/
theorem C6_environment_selection :
    (∀ (l : Bool), Config.environment true l = "staging") ∧
    Config.environment false true = "local" ∧
    Config.environment false false = "production" ∧
    (∀ (s l : Bool), Config.environment s l = "staging" ∨
      Config.environment s l = "local" ∨ Config.environment s l = "production") ∧
    (∀ (su pu : String) (s : Bool),
      Config.fetch_pool_urls su pu s true = Config.PoolRoute.localAddress "127.0.0.1:20000") := by
  refine ⟨fun l => rfl, rfl, rfl, ?_, fun su pu s => rfl⟩
  intro s l
  cases s <;> cases l <;> simp [Config.environment]

namespace Downstream

/-- Placeholder for the sv1_api server_to_client::Notify job message; the
upstream framing library is a black box, so a job is identified here only by
an abstract identity. -/
structure Notify where
  job_id : Nat
deriving DecidableEq, Repr

/-- Embeds the accessors of sv1_api client_to_server::Configure used by
sv1_rolling: the optional requested version-rolling mask and the optional
requested minimum bit count, both u32 values. -/
structure Configure where
  version_rolling_mask : Option Nat
  version_rolling_min_bit_count : Option Nat
deriving DecidableEq, Repr

/-- Embeds sv1_api server_to_client::VersionRollingParams as built by
VersionRollingParams::new(mask, min_bit_count). -/
structure VersionRollingParams where
  version_rolling_mask : Nat
  version_rolling_min_bit_count : Nat
deriving DecidableEq, Repr

/-- Embeds sv1_api client_to_server::Authorize (the fields used by
handle_authorize). -/
structure Authorize where
  name : String
  password : String
deriving DecidableEq, Repr

/-- Embeds WorkerActivityType (src/monitor/worker_activity.rs). -/
inductive WorkerActivityType where
  | Connected
  | Disconnected
deriving DecidableEq, Repr

/-- Embeds WorkerActivity (src/monitor/worker_activity.rs). -/
structure WorkerActivity where
  user_agent : String
  worker_name : String
  activity : WorkerActivityType
deriving DecidableEq, Repr

/-- Modelled from the spec: the RecentJobs type lives in
translator/downstream/downstream.rs, which is not under src/. Spec section
4.1 describes it as a ring of capacity 8 ordered by insertion whose add_job
records the job together with the version mask at the time of the add. -/
structure RecentJobs where
  jobs : List (Notify × Option Nat)
deriving DecidableEq, Repr

/-- Modelled from the spec: add_job appends the entry and keeps at most the
8 most recent entries. -/
def RecentJobs.add_job (rj : RecentJobs) (job : Notify) (mask : Option Nat) : RecentJobs :=
  let l := rj.jobs ++ [(job, mask)]
  ⟨l.drop (l.length - 8)⟩

/-- Embeds sv1_rolling (src/shared/utils.rs): the replied mask is the
requested mask bit-anded with 0x1FFFE000 (0 when no mask was requested) and
the replied minimum bit count is the requested one (0 when absent). -/
def sv1_rolling (configure : Configure) : Nat × Nat :=
  let version_rollin_mask :=
    match configure.version_rolling_mask with
    | some mask => Nat.land mask 0x1FFFE000
    | none => 0
  let version_rolling_min_bit := configure.version_rolling_min_bit_count.getD 0
  (version_rollin_mask, version_rolling_min_bit)

/-- Embeds the session state of IntermediateDownstream
(src/translator/downstream/intermediate_downstream.rs), together with an
effect log emitted_activity recording each worker-activity send that
handle_authorize spawns (the tokio::spawn of send_worker_activity). -/
structure IntermediateDownstream where
  extranonce1 : List Nat
  version_rolling_mask : Option Nat
  version_rolling_min_bit : Option Nat
  extranonce2_len : Nat
  recent_jobs : RecentJobs
  first_job : Notify
  user_agent : String
  emitted_activity : List WorkerActivity
deriving DecidableEq, Repr

/-- Embeds IntermediateDownstream::handle_configure: computes
sv1_rolling(request), stores the mask and minimum bit count on the session,
and replies with Some(VersionRollingParams(mask, min_bits)) and
Some(false) for version-rolling.mask.mandatory. -/
def handle_configure (s : IntermediateDownstream) (request : Configure) :
    IntermediateDownstream × (Option VersionRollingParams × Option Bool) :=
  let p := sv1_rolling request
  ({ s with
      version_rolling_mask := some p.1
      version_rolling_min_bit := some p.2 },
   (some ⟨p.1, p.2⟩, some false))

/-- Embeds IntermediateDownstream::handle_authorize: spawns a Connected
worker-activity send for the request name (recorded on the effect log), adds
the cached first job with the current version-rolling mask to recent_jobs,
and returns true. -/
def handle_authorize (s : IntermediateDownstream) (request : Authorize) :
    IntermediateDownstream × Bool :=
  let worker_activity : WorkerActivity :=
    ⟨s.user_agent, request.name, WorkerActivityType.Connected⟩
  ({ s with
      emitted_activity := s.emitted_activity ++ [worker_activity]
      recent_jobs := s.recent_jobs.add_job s.first_job s.version_rolling_mask },
   true)

/-- Number of Connected worker-activity events recorded on the session
effect log. -/
def connected_count (s : IntermediateDownstream) : Nat :=
  (s.emitted_activity.filter (fun a => a.activity = WorkerActivityType.Connected)).length

/-- A concrete freshly created session used to instantiate the theorems on
handle_configure and handle_authorize. -/
def fresh_session : IntermediateDownstream :=
  { extranonce1 := [0, 1, 2, 3]
    version_rolling_mask := none
    version_rolling_min_bit := none
    extranonce2_len := 4
    recent_jobs := ⟨[]⟩
    first_job := ⟨7⟩
    user_agent := "cgminer"
    emitted_activity := [] }

end Downstream

/-- Claim C1: handle_configure replies with mandatory = false, computes
mask = requested_mask bit-and 0x1FFFE000 (0x1FFFE000 for a requested mask of
0xFFFFFFFF, 0 when the request carries no mask), echoes the requested
min_bits, and stores the computed mask on the session. -/
theorem C1_handle_configure (s : Downstream.IntermediateDownstream)
    (req : Downstream.Configure) :
    ((Downstream.handle_configure s req).2.2 = some false) ∧
    (∀ m b, req.version_rolling_mask = some m →
      req.version_rolling_min_bit_count = some b →
      (Downstream.handle_configure s req).2.1 = some ⟨Nat.land m 0x1FFFE000, b⟩ ∧
      (Downstream.handle_configure s req).1.version_rolling_mask =
        some (Nat.land m 0x1FFFE000)) ∧
    (∀ b, req.version_rolling_mask = none →
      req.version_rolling_min_bit_count = some b →
      (Downstream.handle_configure s req).2.1 = some ⟨0, b⟩ ∧
      (Downstream.handle_configure s req).1.version_rolling_mask = some 0) ∧
    (req.version_rolling_mask = some 0xFFFFFFFF →
      (Downstream.handle_configure s req).1.version_rolling_mask = some 0x1FFFE000) := by
  refine ⟨rfl, ?_, ?_, ?_⟩
  · intro m b hm hb
    simp [Downstream.handle_configure, Downstream.sv1_rolling, hm, hb]
  · intro b hm hb
    simp [Downstream.handle_configure, Downstream.sv1_rolling, hm, hb]
  · intro hm
    simp [Downstream.handle_configure, Downstream.sv1_rolling, hm]
    decide

/-- Witness for C1: instantiates the theorem at a request with mask
0xFFFFFFFF and min bit count 2 and at a request with no mask, discharging
each hypothesis. -/
theorem C1_handle_configure_witness :
    (Downstream.handle_configure Downstream.fresh_session ⟨some 0xFFFFFFFF, some 2⟩).2.1 =
      some ⟨0x1FFFE000, 2⟩ ∧
    (Downstream.handle_configure Downstream.fresh_session ⟨some 0xFFFFFFFF, some 2⟩).1.version_rolling_mask =
      some 0x1FFFE000 ∧
    (Downstream.handle_configure Downstream.fresh_session ⟨none, some 2⟩).2.1 =
      some ⟨0, 2⟩ :=
  have h1 := C1_handle_configure Downstream.fresh_session ⟨some 0xFFFFFFFF, some 2⟩
  have h2 := C1_handle_configure Downstream.fresh_session ⟨none, some 2⟩
  ⟨by
      have := h1.2.1 0xFFFFFFFF 2 rfl rfl
      simpa [show Nat.land 0xFFFFFFFF 0x1FFFE000 = 0x1FFFE000 by decide] using this.1,
   by
      have := h1.2.2.2 rfl
      simpa using this,
   by
      have := h2.2.2.1 2 rfl rfl
      simpa using this.1⟩

/-- Counterexample to claim C2: two successive authorize calls for the same
worker name on a fresh session both return true (the claim says the second
returns false) and two Connected worker-activity events are emitted (the
claim says exactly one). -/
theorem C2_authorize_counterexample :
    (Downstream.handle_authorize Downstream.fresh_session ⟨"user.w1", "x"⟩).2 = true ∧
    (Downstream.handle_authorize
      (Downstream.handle_authorize Downstream.fresh_session ⟨"user.w1", "x"⟩).1
      ⟨"user.w1", "x"⟩).2 = true ∧
    Downstream.connected_count
      (Downstream.handle_authorize
        (Downstream.handle_authorize Downstream.fresh_session ⟨"user.w1", "x"⟩).1
        ⟨"user.w1", "x"⟩).1 = 2 := by
  refine ⟨rfl, rfl, ?_⟩
  decide

/-- Claim C2 as amended: every authorize call returns true and emits exactly
one Connected worker-activity event, so n calls return true n times and emit
n events. -/
theorem C2_authorize_always_true (s : Downstream.IntermediateDownstream)
    (req : Downstream.Authorize) :
    (Downstream.handle_authorize s req).2 = true ∧
    Downstream.connected_count (Downstream.handle_authorize s req).1 =
      Downstream.connected_count s + 1 := by
  refine ⟨rfl, ?_⟩
  simp [Downstream.handle_authorize, Downstream.connected_count]

namespace ReceiveDownstream

/-- One iteration of input to the reader loop of start_receive_downstream
(src/translator/downstream/receive_from_downstream.rs): either the received
line parses as a V1 json_rpc message (with flags telling whether it is a
Submit whose save_share call fails, and whether handle_incoming_sv1 fails),
or it fails to parse. -/
inductive InboundEvent where
  | parseOk (is_submit : Bool) (save_share_ok : Bool) (handle_ok : Bool)
  | parseError
deriving DecidableEq, Repr

/-- How the reader task of start_receive_downstream ends: the channel is
exhausted (inbound EOF), the early return after a V1 parse error, or the
break after a failed save_share. -/
inductive ReaderExit where
  | eof
  | v1ParseError
  | saveShareError
deriving DecidableEq, Repr

/-- Observable effects of one run of the reader task: how it exited, and
whether remove_stats, remove_downstream_hashrate_from_channel and the
send on send_kill_signal were performed before the task exited. -/
structure ReaderOutcome where
  exit : ReaderExit
  stats_removed : Bool
  hashrate_removed : Bool
  kill_signal_sent : Bool
deriving DecidableEq, Repr

/-- Embeds the reader loop of start_receive_downstream. The while loop
consumes events in order; a parse failure returns from the task at once;
a failed save_share on a Submit breaks out of the loop; a failed
handle_incoming_sv1 only updates the proxy state and continues. The code
after the loop (reached on EOF and on break, but not on the early return)
removes the stats entry, removes the downstream hashrate from the channel
and sends the kill signal. -/
def reader_loop : List InboundEvent → ReaderOutcome
  | [] =>
    { exit := ReaderExit.eof
      stats_removed := true, hashrate_removed := true, kill_signal_sent := true }
  | InboundEvent.parseError :: _ =>
    { exit := ReaderExit.v1ParseError
      stats_removed := false, hashrate_removed := false, kill_signal_sent := false }
  | InboundEvent.parseOk is_submit save_share_ok _handle_ok :: rest =>
    if is_submit && !save_share_ok then
      { exit := ReaderExit.saveShareError
        stats_removed := true, hashrate_removed := true, kill_signal_sent := true }
    else
      reader_loop rest

end ReceiveDownstream

/-- Counterexample to claim C3: a session whose first inbound line fails V1
parsing terminates the reader loop, yet neither the hashrate contribution is
removed nor the kill signal is sent — the parse-error path returns early,
skipping the cleanup that the claim asserts. -/
theorem C3_reader_cleanup_counterexample :
    (ReceiveDownstream.reader_loop [ReceiveDownstream.InboundEvent.parseError]).exit =
      ReceiveDownstream.ReaderExit.v1ParseError ∧
    (ReceiveDownstream.reader_loop [ReceiveDownstream.InboundEvent.parseError]).hashrate_removed = false ∧
    (ReceiveDownstream.reader_loop [ReceiveDownstream.InboundEvent.parseError]).kill_signal_sent = false := by
  decide

/-- Claim C3 as amended: the reader task removes the stats entry, removes the
hashrate contribution and sends the kill signal exactly when it does not exit
through the V1 parse-error path — that is, on inbound EOF and on a failed
share save the cleanup runs, while after a V1 parse error the task returns
with no cleanup; in particular any inbound sequence free of parse errors
ends with the cleanup performed. -/
theorem C3_reader_cleanup (events : List ReceiveDownstream.InboundEvent) :
    ((ReceiveDownstream.reader_loop events).hashrate_removed = true ↔
      (ReceiveDownstream.reader_loop events).exit ≠ ReceiveDownstream.ReaderExit.v1ParseError) ∧
    (ReceiveDownstream.reader_loop events).kill_signal_sent =
      (ReceiveDownstream.reader_loop events).hashrate_removed ∧
    (ReceiveDownstream.reader_loop events).stats_removed =
      (ReceiveDownstream.reader_loop events).hashrate_removed ∧
    ((∀ e ∈ events, e ≠ ReceiveDownstream.InboundEvent.parseError) →
      (ReceiveDownstream.reader_loop events).hashrate_removed = true) := by
  induction events with
  | nil => simp [ReceiveDownstream.reader_loop]
  | cons e rest ih =>
    cases e with
    | parseError => simp [ReceiveDownstream.reader_loop]
    | parseOk is_submit save_share_ok handle_ok =>
      by_cases hb : is_submit && !save_share_ok
      · simp [ReceiveDownstream.reader_loop, hb]
      · refine ⟨?_, ?_, ?_, ?_⟩
        · simpa [ReceiveDownstream.reader_loop, hb] using ih.1
        · simpa [ReceiveDownstream.reader_loop, hb] using ih.2.1
        · simpa [ReceiveDownstream.reader_loop, hb] using ih.2.2.1
        · intro hnone
          have : ∀ e ∈ rest, e ≠ ReceiveDownstream.InboundEvent.parseError := by
            intro x hx
            exact hnone x (List.mem_cons_of_mem _ hx)
          simpa [ReceiveDownstream.reader_loop, hb] using ih.2.2.2 this

/-- Witness for C3: a session that submits one share successfully and then
reaches EOF performs the full cleanup; the parse-error-freedom hypothesis is
discharged on the concrete event list. -/
theorem C3_reader_cleanup_witness :
    (ReceiveDownstream.reader_loop
      [ReceiveDownstream.InboundEvent.parseOk true true true]).hashrate_removed = true :=
  (C3_reader_cleanup [ReceiveDownstream.InboundEvent.parseOk true true true]).2.2.2
    (by decide)

namespace TaskManager

/-- Embeds AbortOnDrop (src/shared/utils.rs): a vector of abort handles,
identified here by abstract task ids. -/
structure AbortOnDrop where
  abort_handle : List Nat
deriving DecidableEq, Repr

/-- Embeds the Drop implementation of AbortOnDrop: dropping the handle calls
abort on every tracked task; the result is the list of task ids aborted. -/
def AbortOnDrop.drop_handle (h : AbortOnDrop) : List Nat :=
  h.abort_handle

/-- The task map of TaskManager (src/translator/downstream/task_manager.rs):
tasks tracked by optional connection id (None is the global group). The
HashMap is modelled as an association list; the insertion routine below
keeps keys unique, as a HashMap does. -/
def TaskMap : Type := List (Option Nat × List AbortOnDrop)

/-- HashMap lookup: the group of task handles registered under a key. -/
def lookup_group : TaskMap → Option Nat → Option (List AbortOnDrop)
  | [], _ => none
  | (k, g) :: rest, key => if k = key then some g else lookup_group rest key

/-- Embeds the receiver loop of TaskManager::initialize: each received task
is pushed onto tasks.entry(connection_id).or_default(), creating the entry
when the key is absent. -/
def add_task : TaskMap → Option Nat → AbortOnDrop → TaskMap
  | [], key, h => [(key, [h])]
  | (k, g) :: rest, key, h =>
    if k = key then (k, g ++ [h]) :: rest else (k, g) :: add_task rest key h

/-- All task ids aborted when a group of handles is dropped. -/
def group_ids : List AbortOnDrop → List Nat
  | [] => []
  | h :: rest => h.abort_handle ++ group_ids rest

/-- Embeds TaskManager::abort_tasks_for_connection_id: the entry under
Some(connection_id) is removed from the map and each of its handles is
dropped (aborting every task the handle tracks); every other entry is kept.
Returns the new map and the ids of the aborted tasks. -/
def abort_tasks_for_connection_id : TaskMap → Nat → TaskMap × List Nat
  | [], _ => ([], [])
  | (k, g) :: rest, c =>
    let r := abort_tasks_for_connection_id rest c
    if k = some c then (r.1, group_ids g ++ r.2)
    else ((k, g) :: r.1, r.2)

lemma mem_group_ids {g : List AbortOnDrop} {h : AbortOnDrop} {t : Nat}
    (hh : h ∈ g) (ht : t ∈ h.abort_handle) : t ∈ group_ids g := by
  induction g with
  | nil => cases hh
  | cons x xs ih =>
    rcases List.mem_cons.mp hh with rfl | hh2
    · exact List.mem_append.mpr (Or.inl ht)
    · exact List.mem_append.mpr (Or.inr (ih hh2))

lemma lookup_abort_self (m : TaskMap) (c : Nat) :
    lookup_group (abort_tasks_for_connection_id m c).1 (some c) = none := by
  induction m with
  | nil => rfl
  | cons e rest ih =>
    obtain ⟨k, g⟩ := e
    by_cases hk : k = some c
    · simpa [abort_tasks_for_connection_id, hk] using ih
    · simpa [abort_tasks_for_connection_id, lookup_group, hk] using ih

lemma lookup_abort_other (m : TaskMap) (c : Nat) (key : Option Nat)
    (hne : key ≠ some c) :
    lookup_group (abort_tasks_for_connection_id m c).1 key = lookup_group m key := by
  induction m with
  | nil => rfl
  | cons e rest ih =>
    obtain ⟨k, g⟩ := e
    by_cases hk : k = some c
    · subst hk
      have hck : ¬ (some c = key) := fun h => hne h.symm
      simpa [abort_tasks_for_connection_id, lookup_group, hck] using ih
    · by_cases hkey : k = key
      · subst hkey
        simp [abort_tasks_for_connection_id, lookup_group, hk]
      · simpa [abort_tasks_for_connection_id, lookup_group, hk, hkey] using ih

lemma lookup_abort_aborted {m : TaskMap} {c : Nat} {g : List AbortOnDrop}
    (hg : lookup_group m (some c) = some g) :
    ∀ t ∈ group_ids g, t ∈ (abort_tasks_for_connection_id m c).2 := by
  induction m with
  | nil => cases hg
  | cons e rest ih =>
    obtain ⟨k, gr⟩ := e
    by_cases hk : k = some c
    · have : gr = g := by
        have := hg
        simp [lookup_group, hk] at this
        exact this
      subst this
      intro t ht
      simp only [abort_tasks_for_connection_id, hk, if_pos]
      exact List.mem_append.mpr (Or.inl ht)
    · have hrest : lookup_group rest (some c) = some g := by
        simpa [lookup_group, hk] using hg
      intro t ht
      simpa [abort_tasks_for_connection_id, hk] using ih hrest t ht

lemma lookup_add_task_fresh (m : TaskMap) (key : Option Nat) (h : AbortOnDrop)
    (hnone : lookup_group m key = none) :
    lookup_group (add_task m key h) key = some [h] := by
  induction m with
  | nil => simp [add_task, lookup_group]
  | cons e rest ih =>
    obtain ⟨k, g⟩ := e
    by_cases hk : k = key
    · simp [lookup_group, hk] at hnone
    · have hrest : lookup_group rest key = none := by
        simpa [lookup_group, hk] using hnone
      simpa [add_task, lookup_group, hk] using ih hrest

end TaskManager

/-- Claim C4: abort_tasks_for_connection_id(c) aborts every task handle
registered under Some(c) and removes the Some(c) entry, leaves every other
entry (including the global None group) unchanged, a later registration for
c creates a fresh group containing just the new task, and dropping an
AbortOnDrop handle aborts every task it tracks. -/
theorem C4_abort_connection_group (m : TaskManager.TaskMap) (c : Nat) :
    (TaskManager.lookup_group (TaskManager.abort_tasks_for_connection_id m c).1 (some c) = none) ∧
    (∀ key, key ≠ some c →
      TaskManager.lookup_group (TaskManager.abort_tasks_for_connection_id m c).1 key =
        TaskManager.lookup_group m key) ∧
    (∀ g, TaskManager.lookup_group m (some c) = some g →
      ∀ h ∈ g, ∀ t ∈ h.abort_handle,
        t ∈ (TaskManager.abort_tasks_for_connection_id m c).2) ∧
    (∀ h, TaskManager.lookup_group
      (TaskManager.add_task (TaskManager.abort_tasks_for_connection_id m c).1 (some c) h)
      (some c) = some [h]) ∧
    (∀ (h : TaskManager.AbortOnDrop) (t : Nat),
      t ∈ h.abort_handle → t ∈ h.drop_handle) := by
  refine ⟨TaskManager.lookup_abort_self m c,
    fun key hne => TaskManager.lookup_abort_other m c key hne,
    fun g hg h hh t ht =>
      TaskManager.lookup_abort_aborted hg t (TaskManager.mem_group_ids hh ht),
    fun h => TaskManager.lookup_add_task_fresh _ _ h (TaskManager.lookup_abort_self m c),
    fun h t ht => ht⟩

/-- Witness for C4: on a concrete task map holding a global group, a group
for connection 5 (two handles tracking tasks 2, 3 and 4) and a group for
connection 9, aborting connection 5 empties its entry, aborts task 3, keeps
the entry of connection 9, and a fresh registration for 5 yields a
single-task group; each hypothesis is discharged on these concrete values. -/
theorem C4_abort_connection_group_witness :
    (TaskManager.lookup_group
      (TaskManager.abort_tasks_for_connection_id
        [(none, [⟨[1]⟩]), (some 5, [⟨[2, 3]⟩, ⟨[4]⟩]), (some 9, [⟨[6]⟩])] 5).1
      (some 9) = some [⟨[6]⟩]) ∧
    (3 ∈ (TaskManager.abort_tasks_for_connection_id
      [(none, [⟨[1]⟩]), (some 5, [⟨[2, 3]⟩, ⟨[4]⟩]), (some 9, [⟨[6]⟩])] 5).2) ∧
    (TaskManager.lookup_group
      (TaskManager.add_task
        (TaskManager.abort_tasks_for_connection_id
          [(none, [⟨[1]⟩]), (some 5, [⟨[2, 3]⟩, ⟨[4]⟩]), (some 9, [⟨[6]⟩])] 5).1
        (some 5) ⟨[8]⟩)
      (some 5) = some [⟨[8]⟩]) ∧
    (3 ∈ TaskManager.AbortOnDrop.drop_handle ⟨[2, 3]⟩) :=
  have hthm := C4_abort_connection_group
    [(none, [⟨[1]⟩]), (some 5, [⟨[2, 3]⟩, ⟨[4]⟩]), (some 9, [⟨[6]⟩])] 5
  ⟨hthm.2.1 (some 9) (by decide),
   hthm.2.2.1 [⟨[2, 3]⟩, ⟨[4]⟩] rfl ⟨[2, 3]⟩ (by decide) 3 (by decide),
   hthm.2.2.2.1 ⟨[8]⟩,
   hthm.2.2.2.2 ⟨[2, 3]⟩ 3 (by decide)⟩

namespace AcceptConnection

/-- Modelled from the spec: nearest_power_of_10 lives in
translator/downstream/diff_management.rs, which is not under src/; the spec
says the initial difficulty is "snapped to the nearest power of ten". For a
positive rational this returns the integer power of ten closest to the
input (the lower one on ties); other inputs are returned unchanged. -/
def nearest_power_of_10 (x : ℚ) : ℚ :=
  if 0 < x then
    let e := Int.log 10 x
    if x - 10 ^ e ≤ 10 ^ (e + 1) - x then 10 ^ e else 10 ^ (e + 1)
  else x

/-- Embeds the initial difficulty computation of start_accept_connection
(src/translator/downstream/accept_connection.rs): the declared hash rate is
divided by share_per_second times 2 to the 32 and snapped. The f32
arithmetic is modelled exactly over the rationals; the crate-level constants
EXPECTED_SV1_HASHPOWER and SHARE_PER_MIN live outside src/ and are
parameters. -/
def initial_difficulty (initial_hash_rate share_per_min : ℚ) : ℚ :=
  let share_per_second := share_per_min / 60
  let d := initial_hash_rate / (share_per_second * 2 ^ (32 : ℕ))
  nearest_power_of_10 d

/-- The initial-difficulty formula as the spec words it in section 4.3:
d0 = expected_hashrate / (share_rate times 2 to the 32) with share_rate =
SHARE_PER_MIN / 60 shares per second, snapped to the nearest power of ten. -/
def spec_initial_difficulty (expected_hashrate share_per_min : ℚ) : ℚ :=
  let share_rate := share_per_min / 60
  nearest_power_of_10 (expected_hashrate / (share_rate * 2 ^ (32 : ℕ)))

end AcceptConnection

/-- Claim C7: the initial difficulty assigned to a newly accepted V1
connection equals expected_hashrate / (share_rate times 2 to the 32), with
share_rate = SHARE_PER_MIN / 60 shares per second, snapped to the nearest
power of ten; on a declared hash rate of 95 times 2 to the 32 at 60 shares
per minute the snapped value is 100. -/
theorem C7_initial_difficulty (hr spm : ℚ) :
    AcceptConnection.initial_difficulty hr spm =
      AcceptConnection.spec_initial_difficulty hr spm ∧
    AcceptConnection.initial_difficulty (95 * 2 ^ (32 : ℕ)) 60 = 100 := by
  refine ⟨rfl, ?_⟩
  show AcceptConnection.nearest_power_of_10 (95 * 2 ^ (32 : ℕ) / (60 / 60 * 2 ^ (32 : ℕ))) = 100
  norm_num
  rw [AcceptConnection.nearest_power_of_10]
  norm_num
  rw [show Nat.log 10 95 = 1 from
    Nat.log_eq_of_pow_le_of_lt_pow (by norm_num) (by norm_num)]
  norm_num

namespace Monitor

/-- Embeds RejectionReason, defined identically in src/shares_monitor.rs and
src/monitor/shares.rs. -/
inductive RejectionReason where
  | JobIdNotFound
  | InvalidShare
  | InvalidJobIdFormat
  | DifficultyMismatch
deriving DecidableEq, Repr

/-- Embeds ShareInfo, defined identically in src/shares_monitor.rs and
src/monitor/shares.rs (f32 difficulty modelled as an exact rational). -/
structure ShareInfo where
  worker_name : String
  difficulty : Option ℚ
  job_id : Int
  rejection_reason : Option RejectionReason
  timestamp : Nat
deriving DecidableEq, Repr

/-- Observable outcome of one tick of a shares-monitor loop: the pending
list afterwards and the batches handed to send_shares during the tick. -/
structure TickResult where
  pending : List ShareInfo
  posted : List (List ShareInfo)
deriving DecidableEq, Repr

/-- A concrete share record used to instantiate the monitor theorems. -/
def sample_share : ShareInfo :=
  { worker_name := "user.w1"
    difficulty := some 1
    job_id := 42
    rejection_reason := none
    timestamp := 1700000000 }

end Monitor

namespace MonitorShares

/-- Embeds one tick of SharesMonitor::monitor (src/monitor/shares.rs): the
pending snapshot is read; when non-empty the whole batch is handed to
send_shares; the pending list is cleared only when the send succeeded, and a
failed send leaves it untouched. -/
def monitor_tick (pending : List Monitor.ShareInfo) (send_ok : Bool) :
    Monitor.TickResult :=
  if pending.isEmpty then ⟨pending, []⟩
  else if send_ok then ⟨[], [pending]⟩
  else ⟨pending, [pending]⟩

/-- Embeds the infinite loop of SharesMonitor::monitor (src/monitor/shares.rs)
run over a finite prefix of tick send outcomes: no branch of the loop body
breaks or returns, so every tick of the prefix executes; the result is the
final pending list and the number of ticks executed. -/
def monitor_run (pending : List Monitor.ShareInfo) :
    List Bool → List Monitor.ShareInfo × Nat
  | [] => (pending, 0)
  | ok :: rest =>
    let r := monitor_run (monitor_tick pending ok).pending rest
    (r.1, r.2 + 1)

end MonitorShares

namespace SharesMonitorTop

/-- Embeds the BATCH_SIZE constant of src/shares_monitor.rs. -/
def BATCH_SIZE : Nat := 20

/-- Embeds one tick of SharesMonitor::monitor (src/shares_monitor.rs): the
pending snapshot is read; when it is non-empty and has reached BATCH_SIZE
the whole batch is handed to send_shares and the pending list is cleared
whether or not the send succeeded; below BATCH_SIZE nothing is sent. -/
def monitor_tick (pending : List Monitor.ShareInfo) (_send_ok : Bool) :
    Monitor.TickResult :=
  if pending.isEmpty then ⟨pending, []⟩
  else if BATCH_SIZE ≤ pending.length then ⟨[], [pending]⟩
  else ⟨pending, []⟩

end SharesMonitorTop

/-- Counterexample to claim C8: a tick of the shares-monitor loop of
src/shares_monitor.rs with exactly one pending share record posts nothing —
the batch is withheld until BATCH_SIZE (20) records are pending, so a
non-empty pending list is not always posted. -/
theorem C8_shares_posting_counterexample :
    (SharesMonitorTop.monitor_tick [Monitor.sample_share] true).posted = [] ∧
    [Monitor.sample_share] ≠ ([] : List Monitor.ShareInfo) := by
  refine ⟨rfl, by decide⟩

/-- Claim C8 as amended: on each tick, the monitor-module loop
(src/monitor/shares.rs) posts every non-empty pending batch in full and a
failed post never terminates the loop (every tick of any outcome sequence
executes); the top-level loop (src/shares_monitor.rs) posts the whole batch
only once at least BATCH_SIZE = 20 records are pending — clearing it whether
or not the post succeeds — and withholds smaller non-empty batches. -/
theorem C8_shares_posting (p : List Monitor.ShareInfo) (ok : Bool) :
    (p ≠ [] → (MonitorShares.monitor_tick p ok).posted = [p]) ∧
    (∀ outs, (MonitorShares.monitor_run p outs).2 = outs.length) ∧
    (SharesMonitorTop.BATCH_SIZE ≤ p.length →
      (SharesMonitorTop.monitor_tick p ok).posted = [p] ∧
      (SharesMonitorTop.monitor_tick p ok).pending = []) ∧
    (p ≠ [] → p.length < SharesMonitorTop.BATCH_SIZE →
      (SharesMonitorTop.monitor_tick p ok).posted = [] ∧
      (SharesMonitorTop.monitor_tick p ok).pending = p) := by
  refine ⟨?_, ?_, ?_, ?_⟩
  · intro hne
    cases ok <;> simp [MonitorShares.monitor_tick, List.isEmpty_iff, hne]
  · intro outs
    induction outs generalizing p with
    | nil => rfl
    | cons o rest ih => simp [MonitorShares.monitor_run, ih]
  · intro hlen
    have hne : ¬ p.isEmpty := by
      cases p with
      | nil => simp [SharesMonitorTop.BATCH_SIZE] at hlen
      | cons a l => simp
    simp [SharesMonitorTop.monitor_tick, hne, hlen]
  · intro hne hlt
    simp [SharesMonitorTop.monitor_tick, List.isEmpty_iff, hne, Nat.not_le.mpr hlt]

/-- Witness for C8: instantiated at a single pending share (posted by the
monitor-module loop, withheld by the top-level loop) and at twenty pending
shares (posted and cleared by the top-level loop even though the send
fails), discharging each hypothesis on the concrete lists. -/
theorem C8_shares_posting_witness :
    (MonitorShares.monitor_tick [Monitor.sample_share] false).posted =
      [[Monitor.sample_share]] ∧
    (SharesMonitorTop.monitor_tick (List.replicate 20 Monitor.sample_share) false).posted =
      [List.replicate 20 Monitor.sample_share] ∧
    (SharesMonitorTop.monitor_tick (List.replicate 20 Monitor.sample_share) false).pending =
      [] ∧
    (SharesMonitorTop.monitor_tick [Monitor.sample_share] false).posted = [] :=
  have h1 := C8_shares_posting [Monitor.sample_share] false
  have h20 := C8_shares_posting (List.replicate 20 Monitor.sample_share) false
  ⟨h1.1 (by decide),
   (h20.2.2.1 (by simp [SharesMonitorTop.BATCH_SIZE])).1,
   (h20.2.2.1 (by simp [SharesMonitorTop.BATCH_SIZE])).2,
   (h1.2.2.2 (by decide) (by decide)).1⟩

/-- Claim C9: in the monitor module (src/monitor/shares.rs) the pending list
is cleared only after send_shares succeeds — a tick whose send fails leaves
every previously pending share still pending, and a successful send on a
non-empty batch clears the list. -/
theorem C9_failed_send_keeps_pending (p : List Monitor.ShareInfo) :
    ((MonitorShares.monitor_tick p false).pending = p) ∧
    (∀ s ∈ p, s ∈ (MonitorShares.monitor_tick p false).pending) ∧
    (p ≠ [] → (MonitorShares.monitor_tick p true).pending = []) := by
  refine ⟨?_, ?_, ?_⟩
  · cases p <;> simp [MonitorShares.monitor_tick]
  · intro s hs
    have h1 : (MonitorShares.monitor_tick p false).pending = p := by
      cases p <;> simp [MonitorShares.monitor_tick]
    rw [h1]
    exact hs
  · intro hne
    simp [MonitorShares.monitor_tick, List.isEmpty_iff, hne]

/-- Witness for C9: instantiated at a single pending share; the failed tick
keeps it pending and the successful tick clears the list, with the
non-emptiness hypothesis discharged on the concrete list. -/
theorem C9_failed_send_keeps_pending_witness :
    (MonitorShares.monitor_tick [Monitor.sample_share] false).pending =
      [Monitor.sample_share] ∧
    (MonitorShares.monitor_tick [Monitor.sample_share] true).pending = [] :=
  have h := C9_failed_send_keeps_pending [Monitor.sample_share]
  ⟨h.1, h.2.2 (by decide)⟩
